import Mathlib

/-!
# Newsletter jobs and HTTP handlers of `canvas`

A shallow embedding of `src/jobs/email.go` and `src/handlers/newsletter.go`.

* Collaborators behind Go interfaces (`es`, `gc`, `s`, `q`, `g`) are arbitrary
  state-passing functions over a world type `σ`; every invocation made by the
  embedded code is appended to a log of `Call`s, in program order.
* Go `error` values are the two shapes the code builds (`errors.New`,
  `fmt.Errorf` with `%w`); `nil` is `none`.
* `context.Context` is a small tree; the wall clock is read from the world
  through a `clock : σ → Nat` (nanoseconds, like `time.Duration`).
* Methods of package `model` (`Email.IsValid`, `Email.Local`, `UUID.IsValid`)
  are defined outside these two files and enter as parameters.
-/

namespace Canvas

/-! ## Go errors -/

/-- Go error values: `*errors.errorString` and `*fmt.wrapError`. -/
inductive GoError where
  | errorString (s : String)
  | wrapError (msg : String) (err : GoError)
  deriving DecidableEq, Repr

namespace GoError

/-- The `Error()` method. -/
def Error : GoError → String
  | errorString s => s
  | wrapError msg _ => msg

/-- Result of `errors.Unwrap`. -/
def Unwrap : GoError → Option GoError
  | errorString _ => none
  | wrapError _ err => some err

/-- Result of `errors.Is`: walk the `Unwrap` chain looking for `target`. -/
def Is : GoError → GoError → Bool
  | errorString s, target => decide (errorString s = target)
  | wrapError msg err, target => decide (wrapError msg err = target) || Is err target

end GoError

/-- Go `errors.New(text)`. -/
def errorsNew (text : String) : GoError := GoError.errorString text

/-- Go `fmt.Errorf(context ++ ": %w", err)`: the message is the context, a colon
and the text of `err`; the result unwraps to `err`. -/
def fmtErrorfW (context : String) (err : GoError) : GoError :=
  GoError.wrapError (context ++ ": " ++ err.Error) err

/-! ## Contexts -/

/-- One second as a `time.Duration` (nanoseconds). -/
def Second : Nat := 1000000000

/-- A `context.Context`: the background context, a cancellable child (with its
current cancellation state) or a child carrying an absolute deadline. -/
inductive Context where
  | background
  | cancelCtx (parent : Context) (cancelled : Bool)
  | timerCtx (parent : Context) (deadline : Nat)
  deriving DecidableEq, Repr

namespace Context

/-- The `Deadline()` method: the earliest deadline on the chain, if any. -/
def Deadline : Context → Option Nat
  | background => none
  | cancelCtx parent _ => parent.Deadline
  | timerCtx parent deadline =>
    match parent.Deadline with
    | none => some deadline
    | some d => some (min d deadline)

/-- Go `context.WithDeadline(parent, d)`: when the parent already expires
earlier the child is a plain cancellable context. -/
def WithDeadline (parent : Context) (d : Nat) : Context :=
  match parent.Deadline with
  | some cur => if cur < d then cancelCtx parent false else timerCtx parent d
  | none => timerCtx parent d

/-- Go `context.WithTimeout(parent, timeout)` evaluated at time `now`. -/
def WithTimeout (parent : Context) (now : Nat) (timeout : Nat) : Context :=
  WithDeadline parent (now + timeout)

/-- Time left on a context at time `now` (`none`: no deadline at all). -/
def timeLeft (ctx : Context) (now : Nat) : Option Nat :=
  match ctx.Deadline with
  | none => none
  | some d => some (d - now)

end Context

/-! ## Messages and the call log -/

/-- A `model.Message` (`map[string]string`), written as its key/value pairs. -/
abbrev Message := List (String × String)

/-- Go `v, ok := m[key]`. -/
def Message.get (m : Message) (key : String) : Option String :=
  m.lookup key

/-- One invocation of a collaborator, with its arguments. -/
inductive Call where
  | SendNewsletterConfirmationEmail (ctx : Context) (rcpt : String) (token : String)
  | CreateAndSaveNewsletterGift (ctx : Context) (name : String)
  | SendNewsletterWelcomeEmail (ctx : Context) (rcpt : String) (giftURL : String)
  | println (args : List String)
  | SignupForNewsletter (ctx : Context) (email : String)
  | ConfirmNewsletterSignup (ctx : Context) (token : String)
  | Send (ctx : Context) (m : Message)
  | GetNewsletter (ctx : Context) (id : String)
  | GetNewsletters (ctx : Context)
  | logInfo (msg : String) (err : GoError) (fields : List (String × String))
  deriving DecidableEq, Repr

/-- What running a piece of code leaves behind: its return value, the calls it
made in order, and the world after it. -/
structure Run (σ : Type) (α : Type) where
  result : α
  calls : List Call
  world : σ

/-! ## `jobs/email.go` -/

/-- A job handler: `func(ctx context.Context, m model.Message) error`. -/
abbrev Job (σ : Type) := Context → Message → σ → Run σ (Option GoError)

/-- Interface `newsletterconfirmationEmailSender`. -/
abbrev ConfirmationEmailSender (σ : Type) :=
  Context → String → String → σ → Option GoError × σ

/-- Interface `newsletterWelcomeEmailSender`. -/
abbrev WelcomeEmailSender (σ : Type) :=
  Context → String → String → σ → Option GoError × σ

/-- Interface `giftCreator`: returns `(string, error)`. -/
abbrev GiftCreator (σ : Type) :=
  Context → String → σ → (String × Option GoError) × σ

/-- The function literal registered under `"confirmation_email"`
(`jobs/email.go`, lines 18-37). The incoming `ctx` is shadowed on entry; the
deferred `cancel()` runs after the last call and leaves the log as it is. -/
def confirmationEmailJob {σ : Type} (clock : σ → Nat) (es : ConfirmationEmailSender σ) :
    Job σ := fun _ m w =>
  let ctx := Context.WithTimeout Context.background (clock w) (10 * Second)
  match m.get "email" with
  | none => ⟨some (errorsNew "no email address in message"), [], w⟩
  | some rcpt =>
    match m.get "token" with
    | none => ⟨some (errorsNew "no token in message"), [], w⟩
    | some token =>
      let sent := es ctx rcpt token w
      match sent.1 with
      | some err =>
        ⟨some (fmtErrorfW "error sending newsletter confirmation email" err),
          [Call.SendNewsletterConfirmationEmail ctx rcpt token], sent.2⟩
      | none => ⟨none, [Call.SendNewsletterConfirmationEmail ctx rcpt token], sent.2⟩

/-- Go `SendNewsletterConfirmationEmail(r, es)`: one `Register` call on the
registry `r`. -/
def SendNewsletterConfirmationEmail {σ ρ : Type} (Register : String → Job σ → ρ → ρ)
    (clock : σ → Nat) (es : ConfirmationEmailSender σ) (r : ρ) : ρ :=
  Register "confirmation_email" (confirmationEmailJob clock es) r

/-- The function literal registered under `"welcome_email"`
(`jobs/email.go`, lines 49-70). `Local` is `model.Email.Local`. One context is
made on entry and used for both collaborators. -/
def welcomeEmailJob {σ : Type} (clock : σ → Nat) (Local : String → String)
    (es : WelcomeEmailSender σ) (gc : GiftCreator σ) : Job σ := fun _ m w =>
  let ctx := Context.WithTimeout Context.background (clock w) (10 * Second)
  match m.get "email" with
  | none => ⟨some (errorsNew "no email address in message"), [], w⟩
  | some rcpt =>
    let email := rcpt
    let gift := gc ctx (Local email) w
    let giftURL := gift.1.1
    match gift.1.2 with
    | some err =>
      ⟨some (fmtErrorfW "error creating welcome gift" err),
        [Call.CreateAndSaveNewsletterGift ctx (Local email)], gift.2⟩
    | none =>
      let sent := es ctx email giftURL gift.2
      let calls := [Call.CreateAndSaveNewsletterGift ctx (Local email),
        Call.println ["[job] run newsletter", rcpt, giftURL],
        Call.SendNewsletterWelcomeEmail ctx email giftURL]
      match sent.1 with
      | some err => ⟨some (fmtErrorfW "error sending newsletter welcome email" err), calls, sent.2⟩
      | none => ⟨none, calls, sent.2⟩

/-- Go `SendNewsletterWelcomeEmail(r, es, gc)`: one `Register` call on the
registry `r`. -/
def SendNewsletterWelcomeEmail {σ ρ : Type} (Register : String → Job σ → ρ → ρ)
    (clock : σ → Nat) (Local : String → String) (es : WelcomeEmailSender σ)
    (gc : GiftCreator σ) (r : ρ) : ρ :=
  Register "welcome_email" (welcomeEmailJob clock Local es gc) r

/-- A registry that only records what is registered, newest first. -/
def recordJob {σ : Type} (name : String) (h : Job σ) (r : List (String × Job σ)) :
    List (String × Job σ) :=
  (name, h) :: r

/-! ## `handlers/newsletter.go` -/

/-- Go `http.StatusFound`. -/
def StatusFound : Nat := 302
/-- Go `http.StatusBadRequest`. -/
def StatusBadRequest : Nat := 400
/-- Go `http.StatusNotFound`. -/
def StatusNotFound : Nat := 404
/-- Go `http.StatusBadGateway`. -/
def StatusBadGateway : Nat := 502
/-- Go `http.StatusOK`, the status of a response that is only written to. -/
def StatusOK : Nat := 200

/-- The part of an `*http.Request` the handlers read: `r.Context()`, the parsed
form behind `r.FormValue` and the parsed query behind `r.URL.Query()`. -/
structure Request where
  ctx : Context
  form : List (String × String)
  query : List (String × String)

/-- Go `r.FormValue(key)`: the first value of the key, or the empty string. -/
def Request.FormValue (r : Request) (key : String) : String :=
  (r.form.lookup key).getD ""

/-- Go `r.URL.Query().Get(key)`: the first value of the key, or the empty string. -/
def Request.QueryGet (r : Request) (key : String) : String :=
  (r.query.lookup key).getD ""

/-- What a handler does to its `http.ResponseWriter`, named after the call
that does it, with that call's arguments (`http.Error(w, msg, code)`,
`http.Redirect(w, r, url, code)`, `http.NotFound(w, r)`, a view's `Render(w)`);
`ν` is `model.Newsletter`. -/
inductive Response (ν : Type) where
  | Error (msg : String) (code : Nat)
  | Redirect (url : String) (code : Nat)
  | NotFound
  | NewsletterPage (path : String) (n : ν)
  | NewslettersPage (path : String) (newsletters : List ν)

/-- The status code of a response. -/
def Response.status {ν : Type} : Response ν → Nat
  | Response.Error _ code => code
  | Response.Redirect _ code => code
  | Response.NotFound => StatusNotFound
  | Response.NewsletterPage _ _ => StatusOK
  | Response.NewslettersPage _ _ => StatusOK

/-- An HTTP handler: `func(w http.ResponseWriter, r *http.Request)`. -/
abbrev HandlerFunc (σ ν : Type) := Request → σ → Run σ (Response ν)

/-- Interface `signupper`: returns `(string, error)`. -/
abbrev Signupper (σ : Type) := Context → String → σ → (String × Option GoError) × σ

/-- Interface `sender`. -/
abbrev Sender (σ : Type) := Context → Message → σ → Option GoError × σ

/-- Interface `confirmer`: returns `(*model.Email, error)`. -/
abbrev Confirmer (σ : Type) := Context → String → σ → (Option String × Option GoError) × σ

/-- Interface `getter`: `GetNewsletter` and `GetNewsletters`. -/
structure Getter (σ ν : Type) where
  GetNewsletter : Context → String → σ → (Option ν × Option GoError) × σ
  GetNewsletters : Context → σ → (List ν × Option GoError) × σ

/-- The function literal mounted on `POST /newsletter/signup`
(`handlers/newsletter.go`, lines 21-47). `IsValid` is `model.Email.IsValid`. -/
def newsletterSignupPost {σ ν : Type} (IsValid : String → Bool) (s : Signupper σ)
    (q : Sender σ) : HandlerFunc σ ν := fun r w =>
  let email := r.FormValue "email"
  if !IsValid email then
    ⟨Response.Error "email is invalid" StatusBadRequest, [], w⟩
  else
    let signed := s r.ctx email w
    let token := signed.1.1
    match signed.1.2 with
    | some err =>
      ⟨Response.Error "error signing up, refresh to try again" StatusBadGateway,
        [Call.SignupForNewsletter r.ctx email,
          Call.logInfo "Error signing up for newsletter" err []], signed.2⟩
    | none =>
      let msg : Message := [("job", "confirmation_email"), ("email", email), ("token", token)]
      let queued := q r.ctx msg signed.2
      let calls := [Call.SignupForNewsletter r.ctx email, Call.Send r.ctx msg]
      match queued.1 with
      | some _ =>
        ⟨Response.Error "error signing up, refresh to try again" StatusBadGateway, calls,
          queued.2⟩
      | none => ⟨Response.Redirect "/newsletter/thanks" StatusFound, calls, queued.2⟩

/-- Go `NewsletterSignup(mux, s, q, log)`: one `mux.Post` call. -/
def NewsletterSignup {σ ν μ : Type} (Post : String → HandlerFunc σ ν → μ → μ)
    (IsValid : String → Bool) (s : Signupper σ) (q : Sender σ) (mux : μ) : μ :=
  Post "/newsletter/signup" (newsletterSignupPost IsValid s q) mux

/-- The function literal mounted on `POST /newsletter/confirm`
(`handlers/newsletter.go`, lines 67-90). -/
def newsletterConfirmPost {σ ν : Type} (s : Confirmer σ) (q : Sender σ) :
    HandlerFunc σ ν := fun r w =>
  let token := r.FormValue "token"
  let confirmed := s r.ctx token w
  match confirmed.1.2 with
  | some _ =>
    ⟨Response.Error "error saving email address confirmation, refresh to try again"
        StatusBadGateway, [Call.ConfirmNewsletterSignup r.ctx token], confirmed.2⟩
  | none =>
    match confirmed.1.1 with
    | none =>
      ⟨Response.Error "bad token" StatusBadRequest, [Call.ConfirmNewsletterSignup r.ctx token],
        confirmed.2⟩
    | some email =>
      let msg : Message := [("job", "welcome_email"), ("email", email)]
      let queued := q r.ctx msg confirmed.2
      let calls := [Call.ConfirmNewsletterSignup r.ctx token, Call.Send r.ctx msg]
      match queued.1 with
      | some _ =>
        ⟨Response.Error "error saving email address confirmation, refresh to try again"
            StatusBadGateway, calls, queued.2⟩
      | none => ⟨Response.Redirect "/newsletter/confirmed" StatusFound, calls, queued.2⟩

/-- Go `NewsletterConfirm(mux, s, q)`, its `mux.Post` call (the `mux.Get` call
mounts a page that only renders the confirmation form). -/
def NewsletterConfirm {σ ν μ : Type} (Post : String → HandlerFunc σ ν → μ → μ)
    (s : Confirmer σ) (q : Sender σ) (mux : μ) : μ :=
  Post "/newsletter/confirm" (newsletterConfirmPost s q) mux

/-- The function literal mounted on `GET /newsletters`
(`handlers/newsletter.go`, lines 105-134). `IsValid` is `model.UUID.IsValid`. -/
def newslettersGet {σ ν : Type} (IsValid : String → Bool) (g : Getter σ ν) :
    HandlerFunc σ ν := fun r w =>
  let id := r.QueryGet "id"
  if id ≠ "" then
    if !IsValid id then
      ⟨Response.NotFound, [], w⟩
    else
      let got := g.GetNewsletter r.ctx id w
      match got.1.2 with
      | some err =>
        ⟨Response.Error "error getting newsletter, refresh to try again" StatusBadGateway,
          [Call.GetNewsletter r.ctx id,
            Call.logInfo "Error getting newsletter" err [("id", id)]], got.2⟩
      | none =>
        match got.1.1 with
        | none => ⟨Response.NotFound, [Call.GetNewsletter r.ctx id], got.2⟩
        | some n => ⟨Response.NewsletterPage "/newsletters" n, [Call.GetNewsletter r.ctx id], got.2⟩
  else
    let listed := g.GetNewsletters r.ctx w
    match listed.1.2 with
    | some err =>
      ⟨Response.Error "error getting newsletters, refresh to try again" StatusBadGateway,
        [Call.GetNewsletters r.ctx, Call.logInfo "Error getting newsletters" err []], listed.2⟩
    | none => ⟨Response.NewslettersPage "/newsletters" listed.1.1, [Call.GetNewsletters r.ctx],
        listed.2⟩

/-- Go `Newsletters(mux, g, log)`: one `mux.Get` call. -/
def Newsletters {σ ν μ : Type} (Get : String → HandlerFunc σ ν → μ → μ)
    (IsValid : String → Bool) (g : Getter σ ν) (mux : μ) : μ :=
  Get "/newsletters" (newslettersGet IsValid g) mux

/-! ## Reading the call log -/

/-- Is this call `Send` on the queue? -/
def Call.isSend : Call → Bool
  | Call.Send _ _ => true
  | _ => false

/-- Is this call a call on the storage layer (signup, confirm or a read)? -/
def Call.isStorage : Call → Bool
  | Call.SignupForNewsletter _ _ => true
  | Call.ConfirmNewsletterSignup _ _ => true
  | Call.GetNewsletter _ _ => true
  | Call.GetNewsletters _ => true
  | _ => false

/-- Is this call one of the two methods of the email transport? -/
def Call.isTransport : Call → Bool
  | Call.SendNewsletterConfirmationEmail _ _ _ => true
  | Call.SendNewsletterWelcomeEmail _ _ _ => true
  | _ => false

/-- Is this call `CreateAndSaveNewsletterGift`? -/
def Call.isGift : Call → Bool
  | Call.CreateAndSaveNewsletterGift _ _ => true
  | _ => false

/-- The context an invocation received (`println` and the logger get none). -/
def Call.context : Call → Option Context
  | Call.SendNewsletterConfirmationEmail ctx _ _ => some ctx
  | Call.CreateAndSaveNewsletterGift ctx _ => some ctx
  | Call.SendNewsletterWelcomeEmail ctx _ _ => some ctx
  | Call.println _ => none
  | Call.SignupForNewsletter ctx _ => some ctx
  | Call.ConfirmNewsletterSignup ctx _ => some ctx
  | Call.Send ctx _ => some ctx
  | Call.GetNewsletter ctx _ => some ctx
  | Call.GetNewsletters ctx => some ctx
  | Call.logInfo _ _ _ => none

/-- The contexts handed to `CreateAndSaveNewsletterGift`, in call order. -/
def giftContexts (calls : List Call) : List Context :=
  (calls.filter Call.isGift).filterMap Call.context

/-- The contexts handed to the email transport, in call order. -/
def transportContexts (calls : List Call) : List Context :=
  (calls.filter Call.isTransport).filterMap Call.context

/-! ## Package `model` -/

/-- Modelled from the spec: `model.Email.Local`, which is defined outside
`jobs/email.go`; the local part is what stands before the `@` that separates
it from the domain. -/
def Email.Local (e : String) : String :=
  String.mk (e.toList.takeWhile (fun c => c != '@'))

/-! ## Sample collaborators, for concrete runs -/

/-- A world for concrete runs: the clock reading and, once the email transport
has run, the time it found left on the context it was given. -/
structure Sample where
  now : Nat
  seen : Option (Option Nat)
  deriving DecidableEq, Repr

/-- The clock of a `Sample` world. -/
def Sample.clock (w : Sample) : Nat := w.now

/-- The world at time zero. -/
def Sample.start : Sample := ⟨0, none⟩

/-- A gift creator that takes seven seconds and stores the gift under its name. -/
def sampleGift : GiftCreator Sample := fun _ name w =>
  (("https://gifts.example/" ++ name, none), { w with now := w.now + 7 * Second })

/-- A gift creator that fails after one second. -/
def brokenGift : GiftCreator Sample := fun _ _ w =>
  (("", some (errorsNew "bucket unavailable")), { w with now := w.now + Second })

/-- A welcome-email transport that notes the time left on its context and
takes one second. -/
def sampleWelcome : WelcomeEmailSender Sample := fun ctx _ _ w =>
  (none, ⟨w.now + Second, some (ctx.timeLeft w.now)⟩)

/-- A confirmation-email transport that notes the time left on its context and
takes one second. -/
def sampleConfirmation : ConfirmationEmailSender Sample := fun ctx _ _ w =>
  (none, ⟨w.now + Second, some (ctx.timeLeft w.now)⟩)

/-- A confirmation-email transport that is down. -/
def brokenConfirmation : ConfirmationEmailSender Sample := fun _ _ _ w =>
  (some (errorsNew "smtp down"), { w with now := w.now + Second })

/-- A signup store that hands out the token `T`. -/
def sampleSignup : Signupper Sample := fun _ _ w => (("T", none), { w with now := w.now + 1 })

/-- A queue that accepts every message. -/
def sampleQueue : Sender Sample := fun _ _ w => (none, { w with now := w.now + 1 })

/-- A confirmation store that knows the token `T` of `a@b.com` only. -/
def sampleConfirm : Confirmer Sample := fun _ token w =>
  (if token = "T" then (some "a@b.com", none) else (none, none), w)

/-- A newsletter store with no newsletters in it. -/
def sampleGetter : Getter Sample String :=
  ⟨fun _ _ w => ((none, none), w), fun _ w => (([], none), w)⟩

/-- A stand-in for `model.Email.IsValid` in concrete runs: one `@`, something
before it, and a dot after it. -/
def sampleEmailIsValid (e : String) : Bool :=
  e.toList.count '@' == 1 && !(e.toList.takeWhile (fun c => c != '@')).isEmpty &&
    (e.toList.dropWhile (fun c => c != '@')).contains '.'

/-- A stand-in for `model.UUID.IsValid` in concrete runs: thirty-six characters,
hexadecimal digits and dashes only. -/
def sampleUUIDIsValid (id : String) : Bool :=
  id.length == 36 && id.toList.all (fun c => c.isDigit || c == '-' || ('a' ≤ c && c ≤ 'f'))

/-- A request carrying only a form. -/
def formRequest (form : List (String × String)) : Request :=
  ⟨Context.cancelCtx Context.background false, form, []⟩

/-- A request carrying only a query string. -/
def queryRequest (query : List (String × String)) : Request :=
  ⟨Context.cancelCtx Context.background false, [], query⟩

/-- A caller context that has already been cancelled. -/
def cancelledCtx : Context := Context.cancelCtx Context.background true

/-! ## Helper lemmas -/

theorem withTimeout_background (now timeout : Nat) :
    Context.WithTimeout Context.background now timeout
      = Context.timerCtx Context.background (now + timeout) := rfl

theorem registers_confirmation_email {σ ρ : Type} (Register : String → Job σ → ρ → ρ)
    (clock : σ → Nat) (es : ConfirmationEmailSender σ) (r : ρ) :
    SendNewsletterConfirmationEmail Register clock es r
      = Register "confirmation_email" (confirmationEmailJob clock es) r := rfl

theorem registers_welcome_email {σ ρ : Type} (Register : String → Job σ → ρ → ρ)
    (clock : σ → Nat) (Local : String → String) (es : WelcomeEmailSender σ)
    (gc : GiftCreator σ) (r : ρ) :
    SendNewsletterWelcomeEmail Register clock Local es gc r
      = Register "welcome_email" (welcomeEmailJob clock Local es gc) r := rfl

theorem recorded_jobs {σ : Type} (clock : σ → Nat) (Local : String → String)
    (esc : ConfirmationEmailSender σ) (esw : WelcomeEmailSender σ) (gc : GiftCreator σ) :
    SendNewsletterWelcomeEmail recordJob clock Local esw gc
        (SendNewsletterConfirmationEmail recordJob clock esc [])
      = [("welcome_email", welcomeEmailJob clock Local esw gc),
        ("confirmation_email", confirmationEmailJob clock esc)] := rfl

theorem fmtErrorfW_unwrap (context : String) (err : GoError) :
    (fmtErrorfW context err).Unwrap = some err := rfl

theorem is_self (e : GoError) : e.Is e = true := by
  cases e <;> simp [GoError.Is]

theorem fmtErrorfW_is (context : String) (err : GoError) :
    (fmtErrorfW context err).Is err = true := by
  simp [fmtErrorfW, GoError.Is, is_self]

/-! ## The job handlers -/

/-- C1: the `"welcome_email"` handler, on a message without an `"email"` key or
when the gift creator it calls returns a non-nil error, returns a non-nil error
and never invokes the email transport; without an `"email"` key it invokes the
gift creator neither (it calls nothing at all). -/
theorem welcome_email_failure_sends_nothing {σ : Type} (clock : σ → Nat)
    (Local : String → String) (es : WelcomeEmailSender σ) (gc : GiftCreator σ)
    (ctx : Context) (m : Message) (w : σ)
    (h : m.get "email" = none ∨
      ∃ e, m.get "email" = some e ∧
        (gc (Context.WithTimeout Context.background (clock w) (10 * Second)) (Local e) w).1.2
          ≠ none) :
    (welcomeEmailJob clock Local es gc ctx m w).result ≠ none ∧
    (∀ c ∈ (welcomeEmailJob clock Local es gc ctx m w).calls, c.isTransport = false) ∧
    (m.get "email" = none →
      ∀ c ∈ (welcomeEmailJob clock Local es gc ctx m w).calls, c.isGift = false) := by
  rcases h with h | ⟨e, he, hg⟩
  · simp [welcomeEmailJob, h]
  · obtain ⟨err, herr⟩ := Option.ne_none_iff_exists'.mp hg
    simp [welcomeEmailJob, he, herr, Call.isTransport]

/-- C1, at a concrete input: a gift creator that fails. -/
theorem welcome_email_failure_sends_nothing_witness :
    (welcomeEmailJob Sample.clock Email.Local sampleWelcome brokenGift Context.background
        [("job", "welcome_email"), ("email", "a@b.com")] Sample.start).result ≠ none ∧
    (∀ c ∈ (welcomeEmailJob Sample.clock Email.Local sampleWelcome brokenGift
        Context.background [("job", "welcome_email"), ("email", "a@b.com")]
        Sample.start).calls, c.isTransport = false) ∧
    (Message.get [("job", "welcome_email"), ("email", "a@b.com")] "email" = none →
      ∀ c ∈ (welcomeEmailJob Sample.clock Email.Local sampleWelcome brokenGift
        Context.background [("job", "welcome_email"), ("email", "a@b.com")]
        Sample.start).calls, c.isGift = false) :=
  welcome_email_failure_sends_nothing Sample.clock Email.Local sampleWelcome brokenGift
    Context.background [("job", "welcome_email"), ("email", "a@b.com")] Sample.start
    (Or.inr ⟨"a@b.com", by decide, by decide⟩)

/-- C2: the `"confirmation_email"` handler, on a message that lacks the
`"email"` key or lacks the `"token"` key, returns a non-nil error and never
invokes the email transport (it calls nothing at all). -/
theorem confirmation_email_missing_key {σ : Type} (clock : σ → Nat)
    (es : ConfirmationEmailSender σ) (ctx : Context) (m : Message) (w : σ)
    (h : m.get "email" = none ∨ m.get "token" = none) :
    (confirmationEmailJob clock es ctx m w).result ≠ none ∧
    (∀ c ∈ (confirmationEmailJob clock es ctx m w).calls, c.isTransport = false) ∧
    (confirmationEmailJob clock es ctx m w).calls = [] := by
  rcases h with h | h
  · simp [confirmationEmailJob, h]
  · cases he : m.get "email" <;> simp [confirmationEmailJob, h, he]

/-- C2, at a concrete input: a message without `"token"`. -/
theorem confirmation_email_missing_key_witness :
    (confirmationEmailJob Sample.clock sampleConfirmation Context.background
        [("job", "confirmation_email"), ("email", "a@b.com")] Sample.start).result ≠ none ∧
    (∀ c ∈ (confirmationEmailJob Sample.clock sampleConfirmation Context.background
        [("job", "confirmation_email"), ("email", "a@b.com")] Sample.start).calls,
      c.isTransport = false) ∧
    (confirmationEmailJob Sample.clock sampleConfirmation Context.background
        [("job", "confirmation_email"), ("email", "a@b.com")] Sample.start).calls = [] :=
  confirmation_email_missing_key Sample.clock sampleConfirmation Context.background
    [("job", "confirmation_email"), ("email", "a@b.com")] Sample.start (Or.inr (by decide))

/-- C3: the `"welcome_email"` handler, on a message whose `"email"` is `e`, calls
the gift creator exactly once, with seed `Local e`; when that returns URL `g`
without error it then calls the email transport exactly once, after the gift
creator (in the world the gift creator left), with `(e, g)`; and it returns nil
exactly when both calls return nil. -/
theorem welcome_email_calls {σ : Type} (clock : σ → Nat) (Local : String → String)
    (es : WelcomeEmailSender σ) (gc : GiftCreator σ) (ctx : Context) (m : Message) (w : σ)
    (e : String) (he : m.get "email" = some e) :
    (welcomeEmailJob clock Local es gc ctx m w).calls.filter Call.isGift
      = [Call.CreateAndSaveNewsletterGift
          (Context.WithTimeout Context.background (clock w) (10 * Second)) (Local e)] ∧
    (∀ g w1,
      gc (Context.WithTimeout Context.background (clock w) (10 * Second)) (Local e) w
        = ((g, none), w1) →
      (welcomeEmailJob clock Local es gc ctx m w).calls
        = [Call.CreateAndSaveNewsletterGift
            (Context.WithTimeout Context.background (clock w) (10 * Second)) (Local e),
          Call.println ["[job] run newsletter", e, g],
          Call.SendNewsletterWelcomeEmail
            (Context.WithTimeout Context.background (clock w) (10 * Second)) e g] ∧
      (welcomeEmailJob clock Local es gc ctx m w).calls.filter Call.isTransport
        = [Call.SendNewsletterWelcomeEmail
            (Context.WithTimeout Context.background (clock w) (10 * Second)) e g] ∧
      (welcomeEmailJob clock Local es gc ctx m w).world
        = (es (Context.WithTimeout Context.background (clock w) (10 * Second)) e g w1).2) ∧
    ((welcomeEmailJob clock Local es gc ctx m w).result = none ↔
      (gc (Context.WithTimeout Context.background (clock w) (10 * Second)) (Local e) w).1.2
          = none ∧
        (es (Context.WithTimeout Context.background (clock w) (10 * Second)) e
          (gc (Context.WithTimeout Context.background (clock w) (10 * Second))
            (Local e) w).1.1
          (gc (Context.WithTimeout Context.background (clock w) (10 * Second))
            (Local e) w).2).1 = none) := by
  refine ⟨?_, ?_, ?_⟩
  · simp only [welcomeEmailJob, he]
    split
    · simp [Call.isGift]
    · split <;> simp [Call.isGift]
  · intro g w1 hg
    simp only [welcomeEmailJob, he, hg]
    split <;> simp [Call.isTransport]
  · simp only [welcomeEmailJob, he]
    split
    · next err herr => simp [herr]
    · next herr =>
      split
      · next err2 herr2 => simp [herr2]
      · next herr2 => simp [herr, herr2]

/-- C3, at a concrete input: email `a@b.com` gives seed `a`, and the transport
is called with `a@b.com` and the URL the gift creator returned. -/
theorem welcome_email_calls_witness :
    Email.Local "a@b.com" = "a" ∧
    sampleGift (Context.WithTimeout Context.background 0 (10 * Second)) "a" Sample.start
      = (("https://gifts.example/a", none), ⟨7 * Second, none⟩) ∧
    (welcomeEmailJob Sample.clock Email.Local sampleWelcome sampleGift Context.background
        [("job", "welcome_email"), ("email", "a@b.com")] Sample.start).calls
      = [Call.CreateAndSaveNewsletterGift
          (Context.timerCtx Context.background (10 * Second)) "a",
        Call.println ["[job] run newsletter", "a@b.com", "https://gifts.example/a"],
        Call.SendNewsletterWelcomeEmail
          (Context.timerCtx Context.background (10 * Second)) "a@b.com"
          "https://gifts.example/a"] :=
  ⟨by decide, by decide,
    ((welcome_email_calls Sample.clock Email.Local sampleWelcome sampleGift
      Context.background [("job", "welcome_email"), ("email", "a@b.com")] Sample.start
      "a@b.com" (by decide)).2.1 "https://gifts.example/a" ⟨7 * Second, none⟩
      (by decide)).1⟩

/-- C4: the `"confirmation_email"` handler, on a message whose `"email"` is `e`
and whose `"token"` is `t`, calls the email transport exactly once, with
`(e, t)` unchanged; it returns nil exactly when the transport does; and when
the transport returns `err` it returns an error that unwraps to `err`
(`errors.Unwrap`, `errors.Is`) and whose text is
`error sending newsletter confirmation email: ` followed by the text of `err`. -/
theorem confirmation_email_calls {σ : Type} (clock : σ → Nat)
    (es : ConfirmationEmailSender σ) (ctx : Context) (m : Message) (w : σ)
    (e t : String) (he : m.get "email" = some e) (ht : m.get "token" = some t) :
    (confirmationEmailJob clock es ctx m w).calls
      = [Call.SendNewsletterConfirmationEmail
          (Context.WithTimeout Context.background (clock w) (10 * Second)) e t] ∧
    ((confirmationEmailJob clock es ctx m w).result = none ↔
      (es (Context.WithTimeout Context.background (clock w) (10 * Second)) e t w).1 = none) ∧
    (∀ err,
      (es (Context.WithTimeout Context.background (clock w) (10 * Second)) e t w).1
        = some err →
      ∃ r, (confirmationEmailJob clock es ctx m w).result = some r ∧
        r.Unwrap = some err ∧ r.Is err = true ∧
        r.Error = "error sending newsletter confirmation email: " ++ err.Error) := by
  refine ⟨?_, ?_, ?_⟩
  · simp only [confirmationEmailJob, he, ht]
    split <;> rfl
  · simp only [confirmationEmailJob, he, ht]
    split
    · next err herr => simp [herr]
    · next herr => simp [herr]
  · intro err herr
    refine ⟨fmtErrorfW "error sending newsletter confirmation email" err, ?_,
      fmtErrorfW_unwrap _ _, fmtErrorfW_is _ _, ?_⟩
    · simp only [confirmationEmailJob, he, ht, herr]
    · simp [fmtErrorfW, GoError.Error, String.append_assoc]

/-- C4, at a concrete input: `a@b.com` with token `T` reaches the transport as
`(a@b.com, T)`; a transport that is down has its error wrapped. -/
theorem confirmation_email_calls_witness :
    (confirmationEmailJob Sample.clock sampleConfirmation Context.background
        [("job", "confirmation_email"), ("email", "a@b.com"), ("token", "T")]
        Sample.start).calls
      = [Call.SendNewsletterConfirmationEmail
          (Context.timerCtx Context.background (10 * Second)) "a@b.com" "T"] ∧
    (confirmationEmailJob Sample.clock sampleConfirmation Context.background
        [("job", "confirmation_email"), ("email", "a@b.com"), ("token", "T")]
        Sample.start).result = none ∧
    (confirmationEmailJob Sample.clock brokenConfirmation Context.background
        [("job", "confirmation_email"), ("email", "a@b.com"), ("token", "T")]
        Sample.start).result
      = some (GoError.wrapError "error sending newsletter confirmation email: smtp down"
          (GoError.errorString "smtp down")) :=
  ⟨(confirmation_email_calls Sample.clock sampleConfirmation Context.background
      [("job", "confirmation_email"), ("email", "a@b.com"), ("token", "T")] Sample.start
      "a@b.com" "T" (by decide) (by decide)).1,
    (confirmation_email_calls Sample.clock sampleConfirmation Context.background
      [("job", "confirmation_email"), ("email", "a@b.com"), ("token", "T")] Sample.start
      "a@b.com" "T" (by decide) (by decide)).2.1.mpr (by decide),
    by decide⟩

/-- C9, as stated, fails: on `a@b.com` with a gift creator that takes seven
seconds, the context handed to the email transport is the very context that was
handed to the gift creator, and the transport finds three seconds left on it,
not ten. -/
theorem welcome_email_fresh_deadline_counterexample :
    giftContexts (welcomeEmailJob Sample.clock Email.Local sampleWelcome sampleGift
        Context.background [("job", "welcome_email"), ("email", "a@b.com")]
        Sample.start).calls
      = [Context.timerCtx Context.background (10 * Second)] ∧
    transportContexts (welcomeEmailJob Sample.clock Email.Local sampleWelcome sampleGift
        Context.background [("job", "welcome_email"), ("email", "a@b.com")]
        Sample.start).calls
      = [Context.timerCtx Context.background (10 * Second)] ∧
    ¬ (∀ k ∈ giftContexts (welcomeEmailJob Sample.clock Email.Local sampleWelcome sampleGift
          Context.background [("job", "welcome_email"), ("email", "a@b.com")]
          Sample.start).calls,
        ∀ k2 ∈ transportContexts (welcomeEmailJob Sample.clock Email.Local sampleWelcome
          sampleGift Context.background [("job", "welcome_email"), ("email", "a@b.com")]
          Sample.start).calls, k ≠ k2) ∧
    (welcomeEmailJob Sample.clock Email.Local sampleWelcome sampleGift Context.background
        [("job", "welcome_email"), ("email", "a@b.com")] Sample.start).world.seen
      = some (some (3 * Second)) ∧
    (welcomeEmailJob Sample.clock Email.Local sampleWelcome sampleGift Context.background
        [("job", "welcome_email"), ("email", "a@b.com")] Sample.start).world.seen
      ≠ some (some (10 * Second)) := by
  refine ⟨by decide, by decide, by decide, by decide, by decide⟩

/-- C9, amended: the `"welcome_email"` handler makes one context on entry, from
the background context with a ten-second timeout, and hands that same context
first to the gift creator and then to the email transport; when the transport
is invoked, the time left on it is the ten seconds less the time the gift
creator took. -/
theorem welcome_email_one_context {σ : Type} (clock : σ → Nat) (Local : String → String)
    (es : WelcomeEmailSender σ) (gc : GiftCreator σ) (ctx : Context) (m : Message) (w : σ)
    (e : String) (he : m.get "email" = some e)
    (hg : (gc (Context.WithTimeout Context.background (clock w) (10 * Second))
      (Local e) w).1.2 = none) :
    giftContexts (welcomeEmailJob clock Local es gc ctx m w).calls
      = [Context.timerCtx Context.background (clock w + 10 * Second)] ∧
    transportContexts (welcomeEmailJob clock Local es gc ctx m w).calls
      = [Context.timerCtx Context.background (clock w + 10 * Second)] ∧
    (Context.timerCtx Context.background (clock w + 10 * Second)).timeLeft (clock w)
      = some (10 * Second) ∧
    (Context.timerCtx Context.background (clock w + 10 * Second)).timeLeft
        (clock (gc (Context.WithTimeout Context.background (clock w) (10 * Second))
          (Local e) w).2)
      = some (clock w + 10 * Second
          - clock (gc (Context.WithTimeout Context.background (clock w) (10 * Second))
              (Local e) w).2) := by
  refine ⟨?_, ?_, ?_, ?_⟩
  · simp only [welcomeEmailJob, he, hg]
    split <;>
      simp [giftContexts, Call.isGift, Call.context, withTimeout_background]
  · simp only [welcomeEmailJob, he, hg]
    split <;>
      simp [transportContexts, Call.isTransport, Call.context, withTimeout_background]
  · simp [Context.timeLeft, Context.Deadline]
  · simp [Context.timeLeft, Context.Deadline]

/-- C9 amended, at a concrete input: after a seven-second gift creation the
shared context has three of its ten seconds left. -/
theorem welcome_email_one_context_witness :
    transportContexts (welcomeEmailJob Sample.clock Email.Local sampleWelcome sampleGift
        cancelledCtx [("job", "welcome_email"), ("email", "c@d.org")] ⟨Second, none⟩).calls
      = [Context.timerCtx Context.background (11 * Second)] ∧
    (Context.timerCtx Context.background (11 * Second)).timeLeft (8 * Second)
      = some (3 * Second) :=
  ⟨(welcome_email_one_context Sample.clock Email.Local sampleWelcome sampleGift cancelledCtx
      [("job", "welcome_email"), ("email", "c@d.org")] ⟨Second, none⟩ "c@d.org"
      (by decide) (by decide)).2.1, by decide⟩

/-- C10: both job handlers ignore the context they are called with: for any
two incoming contexts the whole run (returned error, calls with their
arguments, resulting world) is the same, and every context a collaborator
receives is the background context with a ten-second timeout added on entry. -/
theorem jobs_ignore_caller_context {σ : Type} (clock : σ → Nat) (Local : String → String)
    (esc : ConfirmationEmailSender σ) (esw : WelcomeEmailSender σ) (gc : GiftCreator σ)
    (ctx1 ctx2 : Context) (m : Message) (w : σ) :
    confirmationEmailJob clock esc ctx1 m w = confirmationEmailJob clock esc ctx2 m w ∧
    welcomeEmailJob clock Local esw gc ctx1 m w = welcomeEmailJob clock Local esw gc ctx2 m w ∧
    (∀ c ∈ (confirmationEmailJob clock esc ctx1 m w).calls, ∀ k, c.context = some k →
      k = Context.WithTimeout Context.background (clock w) (10 * Second)) ∧
    (∀ c ∈ (welcomeEmailJob clock Local esw gc ctx1 m w).calls, ∀ k, c.context = some k →
      k = Context.WithTimeout Context.background (clock w) (10 * Second)) ∧
    Context.WithTimeout Context.background (clock w) (10 * Second)
      = Context.timerCtx Context.background (clock w + 10 * Second) ∧
    (Context.WithTimeout Context.background (clock w) (10 * Second)).timeLeft (clock w)
      = some (10 * Second) := by
  refine ⟨rfl, rfl, ?_, ?_, rfl, ?_⟩
  · intro c hc k hk
    simp only [confirmationEmailJob] at hc
    split at hc
    · simp at hc
    · split at hc
      · simp at hc
      · split at hc <;> simp at hc <;> subst hc <;> simp [Call.context] at hk <;> exact hk.symm
  · intro c hc k hk
    simp only [welcomeEmailJob] at hc
    split at hc
    · simp at hc
    · split at hc
      · simp at hc; subst hc; simp [Call.context] at hk; exact hk.symm
      · split at hc <;> simp at hc <;> rcases hc with hc | hc | hc <;> subst hc <;>
          simp [Call.context] at hk <;> exact hk.symm
  · simp [withTimeout_background, Context.timeLeft, Context.Deadline]

/-! ## The HTTP handlers -/

/-- C5: `POST /newsletter/confirm` tells a bad token from a storage failure:
when the confirmer returns `(nil, nil)` the response is 400 with body
`bad token`; when it returns a non-nil error the response is 502; neither path
invokes `Send`. `Send` is invoked exactly when the confirmer returns a non-nil
email and a nil error, and then once, with the message
`job = welcome_email, email = <the returned email>`. -/
theorem newsletter_confirm_outcomes {σ ν : Type} (s : Confirmer σ) (q : Sender σ)
    (r : Request) (w : σ) :
    ((s r.ctx (r.FormValue "token") w).1 = (none, none) →
      (newsletterConfirmPost s q r w : Run σ (Response ν)).result
        = Response.Error "bad token" StatusBadRequest ∧
      (newsletterConfirmPost s q r w : Run σ (Response ν)).result.status = 400 ∧
      ∀ c ∈ (newsletterConfirmPost s q r w : Run σ (Response ν)).calls, c.isSend = false) ∧
    ((s r.ctx (r.FormValue "token") w).1.2 ≠ none →
      (newsletterConfirmPost s q r w : Run σ (Response ν)).result.status = 502 ∧
      ∀ c ∈ (newsletterConfirmPost s q r w : Run σ (Response ν)).calls, c.isSend = false) ∧
    ((∃ c ∈ (newsletterConfirmPost s q r w : Run σ (Response ν)).calls, c.isSend = true) ↔
      (s r.ctx (r.FormValue "token") w).1.1 ≠ none ∧
        (s r.ctx (r.FormValue "token") w).1.2 = none) ∧
    (∀ email, (s r.ctx (r.FormValue "token") w).1 = (some email, none) →
      (newsletterConfirmPost s q r w : Run σ (Response ν)).calls.filter Call.isSend
        = [Call.Send r.ctx [("job", "welcome_email"), ("email", email)]]) := by
  refine ⟨?_, ?_, ?_, ?_⟩
  · intro h
    simp [newsletterConfirmPost, h, Response.status, StatusBadRequest, Call.isSend]
  · intro h
    obtain ⟨err, herr⟩ := Option.ne_none_iff_exists'.mp h
    simp [newsletterConfirmPost, herr, Response.status, StatusBadGateway, Call.isSend]
  · simp only [newsletterConfirmPost]
    split
    · next err herr => simp [herr, Call.isSend]
    · next herr =>
      split
      · next hem => simp [herr, hem, Call.isSend]
      · next email hem => split <;> simp [herr, hem, Call.isSend]
  · intro email h
    simp only [newsletterConfirmPost, h]
    split <;> simp [Call.isSend]

/-- C6: `POST /newsletter/signup` with a form value `email` that `IsValid`
rejects answers 400 and invokes neither `SignupForNewsletter` nor `Send` (it
calls nothing at all). -/
theorem newsletter_signup_invalid_email {σ ν : Type} (IsValid : String → Bool)
    (s : Signupper σ) (q : Sender σ) (r : Request) (w : σ)
    (h : IsValid (r.FormValue "email") = false) :
    (newsletterSignupPost IsValid s q r w : Run σ (Response ν)).result.status = 400 ∧
    (∀ c ∈ (newsletterSignupPost IsValid s q r w : Run σ (Response ν)).calls,
      c.isStorage = false ∧ c.isSend = false) ∧
    (newsletterSignupPost IsValid s q r w : Run σ (Response ν)).calls = [] ∧
    (newsletterSignupPost IsValid s q r w : Run σ (Response ν)).world = w := by
  simp [newsletterSignupPost, h, Response.status, StatusBadRequest]

/-- C6, at a concrete input: `not-an-email` is turned away. -/
theorem newsletter_signup_invalid_email_witness :
    sampleEmailIsValid "not-an-email" = false ∧
    (newsletterSignupPost sampleEmailIsValid sampleSignup sampleQueue
        (formRequest [("email", "not-an-email")]) Sample.start
        : Run Sample (Response String)).result.status = 400 ∧
    (newsletterSignupPost sampleEmailIsValid sampleSignup sampleQueue
        (formRequest [("email", "not-an-email")]) Sample.start
        : Run Sample (Response String)).calls = [] :=
  ⟨by decide,
    (newsletter_signup_invalid_email sampleEmailIsValid sampleSignup sampleQueue
      (formRequest [("email", "not-an-email")]) Sample.start (by decide)).1,
    (newsletter_signup_invalid_email sampleEmailIsValid sampleSignup sampleQueue
      (formRequest [("email", "not-an-email")]) Sample.start (by decide)).2.2.1⟩

/-- C5, at a concrete input: an unknown token is answered 400 `bad token`
without a `Send`. -/
theorem newsletter_confirm_outcomes_witness :
    (newsletterConfirmPost sampleConfirm sampleQueue (formRequest [("token", "nope")])
        Sample.start : Run Sample (Response String)).result
      = Response.Error "bad token" StatusBadRequest ∧
    (newsletterConfirmPost sampleConfirm sampleQueue (formRequest [("token", "nope")])
        Sample.start : Run Sample (Response String)).result.status = 400 ∧
    ∀ c ∈ (newsletterConfirmPost sampleConfirm sampleQueue (formRequest [("token", "nope")])
        Sample.start : Run Sample (Response String)).calls, c.isSend = false :=
  (newsletter_confirm_outcomes sampleConfirm sampleQueue (formRequest [("token", "nope")])
    Sample.start).1 (by decide)

/-- C7: `POST /newsletter/signup` with a valid email `e`: when
`SignupForNewsletter` fails the response is 502 and `Send` is never invoked;
when it returns token `t` without error, `Send` is invoked exactly once, after
the signup, with the message `job = confirmation_email, email = e, token = t`,
and the response is the 302 redirect to `/newsletter/thanks` exactly when
`Send` returns nil, and the 502 retry message otherwise. -/
theorem newsletter_signup_valid_email {σ ν : Type} (IsValid : String → Bool)
    (s : Signupper σ) (q : Sender σ) (r : Request) (w : σ)
    (h : IsValid (r.FormValue "email") = true) :
    ((s r.ctx (r.FormValue "email") w).1.2 ≠ none →
      (newsletterSignupPost IsValid s q r w : Run σ (Response ν)).result.status = 502 ∧
      ∀ c ∈ (newsletterSignupPost IsValid s q r w : Run σ (Response ν)).calls,
        c.isSend = false) ∧
    (∀ t w1, s r.ctx (r.FormValue "email") w = ((t, none), w1) →
      (newsletterSignupPost IsValid s q r w : Run σ (Response ν)).calls
        = [Call.SignupForNewsletter r.ctx (r.FormValue "email"),
          Call.Send r.ctx
            [("job", "confirmation_email"), ("email", r.FormValue "email"), ("token", t)]] ∧
      (newsletterSignupPost IsValid s q r w : Run σ (Response ν)).calls.filter Call.isSend
        = [Call.Send r.ctx
            [("job", "confirmation_email"), ("email", r.FormValue "email"), ("token", t)]] ∧
      ((newsletterSignupPost IsValid s q r w : Run σ (Response ν)).result
          = Response.Redirect "/newsletter/thanks" StatusFound ↔
        (q r.ctx
          [("job", "confirmation_email"), ("email", r.FormValue "email"), ("token", t)]
          w1).1 = none) ∧
      ((q r.ctx
          [("job", "confirmation_email"), ("email", r.FormValue "email"), ("token", t)]
          w1).1 ≠ none →
        (newsletterSignupPost IsValid s q r w : Run σ (Response ν)).result
          = Response.Error "error signing up, refresh to try again" StatusBadGateway ∧
        (newsletterSignupPost IsValid s q r w : Run σ (Response ν)).result.status = 502)) ∧
    StatusFound = 302 := by
  refine ⟨?_, ?_, rfl⟩
  · intro hs
    obtain ⟨err, herr⟩ := Option.ne_none_iff_exists'.mp hs
    simp [newsletterSignupPost, h, herr, Response.status, StatusBadGateway, Call.isSend]
  · intro t w1 hs
    simp only [newsletterSignupPost, h, hs, Bool.not_true, Bool.false_eq_true, if_false]
    refine ⟨?_, ?_, ?_, ?_⟩
    · split <;> simp
    · split <;> simp [Call.isSend]
    · split
      · next err herr => simp [herr]
      · next herr => simp [herr]
    · intro hq
      obtain ⟨err, herr⟩ := Option.ne_none_iff_exists'.mp hq
      simp [herr, Response.status, StatusBadGateway]

/-- C7, at a concrete input: `a@b.com` is signed up with token `T`, the
confirmation job is queued and the visitor is redirected. -/
theorem newsletter_signup_valid_email_witness :
    sampleEmailIsValid "a@b.com" = true ∧
    (newsletterSignupPost sampleEmailIsValid sampleSignup sampleQueue
        (formRequest [("email", "a@b.com")]) Sample.start
        : Run Sample (Response String)).calls
      = [Call.SignupForNewsletter (Context.cancelCtx Context.background false) "a@b.com",
        Call.Send (Context.cancelCtx Context.background false)
          [("job", "confirmation_email"), ("email", "a@b.com"), ("token", "T")]] ∧
    (newsletterSignupPost sampleEmailIsValid sampleSignup sampleQueue
        (formRequest [("email", "a@b.com")]) Sample.start
        : Run Sample (Response String)).result
      = Response.Redirect "/newsletter/thanks" StatusFound :=
  ⟨by decide,
    ((newsletter_signup_valid_email sampleEmailIsValid sampleSignup sampleQueue
      (formRequest [("email", "a@b.com")]) Sample.start (by decide)).2.1 "T" ⟨1, none⟩
      (by decide)).1,
    ((newsletter_signup_valid_email sampleEmailIsValid sampleSignup sampleQueue
      (formRequest [("email", "a@b.com")]) Sample.start (by decide)).2.1 "T" ⟨1, none⟩
      (by decide)).2.2.1.mpr (by decide)⟩

/-- C8: `GET /newsletters` with a non-empty `id` that `IsValid` rejects answers
404 Not Found and invokes neither `GetNewsletter` nor `GetNewsletters` (it
calls nothing at all). -/
theorem newsletters_malformed_id {σ ν : Type} (IsValid : String → Bool) (g : Getter σ ν)
    (r : Request) (w : σ) (hid : r.QueryGet "id" ≠ "")
    (h : IsValid (r.QueryGet "id") = false) :
    (newslettersGet IsValid g r w).result.status = 404 ∧
    (∀ c ∈ (newslettersGet IsValid g r w).calls, c.isStorage = false) ∧
    (newslettersGet IsValid g r w).calls = [] ∧
    (newslettersGet IsValid g r w).world = w := by
  simp [newslettersGet, hid, h, Response.status, StatusNotFound]

/-- C8, at a concrete input: the id `42` is no UUID. -/
theorem newsletters_malformed_id_witness :
    sampleUUIDIsValid "42" = false ∧
    (newslettersGet sampleUUIDIsValid sampleGetter (queryRequest [("id", "42")])
        Sample.start).result.status = 404 ∧
    (newslettersGet sampleUUIDIsValid sampleGetter (queryRequest [("id", "42")])
        Sample.start).calls = [] :=
  ⟨by decide,
    (newsletters_malformed_id sampleUUIDIsValid sampleGetter (queryRequest [("id", "42")])
      Sample.start (by decide) (by decide)).1,
    (newsletters_malformed_id sampleUUIDIsValid sampleGetter (queryRequest [("id", "42")])
      Sample.start (by decide) (by decide)).2.2.1⟩

/-- C10, at a concrete input: a caller context that is already cancelled
changes nothing about the confirmation job. -/
theorem jobs_ignore_caller_context_witness :
    confirmationEmailJob Sample.clock sampleConfirmation cancelledCtx
        [("job", "confirmation_email"), ("email", "a@b.com"), ("token", "T")] Sample.start
      = confirmationEmailJob Sample.clock sampleConfirmation Context.background
        [("job", "confirmation_email"), ("email", "a@b.com"), ("token", "T")] Sample.start :=
  (jobs_ignore_caller_context Sample.clock Email.Local sampleConfirmation sampleWelcome
    sampleGift cancelledCtx Context.background
    [("job", "confirmation_email"), ("email", "a@b.com"), ("token", "T")] Sample.start).1

end Canvas
